import Mathlib

/-!
# Verification of the basic_finance_calculator core

Shallow embedding of the repository's core components:

* the **Calculator** (`applyQuote` in `src/frontend/src/App.vue`),
* the **Field Synchronizer** (`updateSellingFromCostAndProfit` /
  `updateProfitFromCostAndSelling` in the same file),
* the **Quote Store** (the express routes in `src/unnamed/part_000`:
  `readQuotes`, `app.get("/quotes")`, `app.post("/quotes")`,
  `app.delete("/quotes/:id")`).

JavaScript numbers are modelled as exact rationals (`ℚ`); `Math.round x`
is modelled as `⌊x + 1/2⌋` (round half toward +∞), which is its exact
semantics on finite doubles.  All definitions are computable and follow
the source line by line.
-/

/-- A JavaScript value sitting in a numeric form field: an actual number,
`NaN`, or a non-number (`null` / `undefined` / a string).  `safeNum`
distinguishes exactly these three cases. -/
inductive JSVal where
  | num (q : ℚ)
  | nan
  | nonNumber
  deriving DecidableEq, Repr

/-- Function `safeNum` from App.vue:
`if (typeof value !== "number" || Number.isNaN(value)) return 0; return value;` -/
def safeNum : JSVal → ℚ
  | .num q => q
  | .nan => 0
  | .nonNumber => 0

/-- JavaScript `Math.round` on finite numbers: round half toward +∞. -/
def jsRound (x : ℚ) : ℤ := ⌊x + 1 / 2⌋

/-- Function `round2` from App.vue: `Math.round(value * 100) / 100`. -/
def round2 (value : ℚ) : ℚ := (jsRound (value * 100) : ℚ) / 100

/-- Models JavaScript `Math.pow` on the argument domain this app exercises:
for an integer exponent the result is the exact rational power.  A
non-integer exponent would make JS compute an irrational real in floating
point, which has no rational counterpart; the embedding maps that case to 0,
and no theorem below depends on it. -/
def jsPow (b e : ℚ) : ℚ := if e.den = 1 then b ^ e.num else 0

/-- The `QuoteForm` editing-session state from App.vue (fields may hold
`null`/`NaN`, hence `JSVal`). -/
structure QuoteForm where
  cost : JSVal
  profit : JSVal
  sellingPrice : JSVal
  term : JSVal
  rate : JSVal
  outOfPocket : JSVal
  taxRate : JSVal
  quoteName : String
  deriving DecidableEq, Repr

/-- The `QuoteResult` record from App.vue. -/
structure QuoteResult where
  taxes : ℚ
  baseLoanAmount : ℚ
  interest : ℚ
  totalLoanAmount : ℚ
  payment : ℚ
  deriving DecidableEq, Repr

/-- Function `applyQuote` from App.vue, line by line. -/
def applyQuote (form : QuoteForm) : QuoteResult :=
  let selling := safeNum form.sellingPrice
  let taxRate := safeNum form.taxRate / 100
  let yearlyRate := safeNum form.rate / 100
  let termMonths := safeNum form.term
  let outOfPocket := safeNum form.outOfPocket
  let taxes := round2 (selling * taxRate)
  let baseLoanAmount := round2 (selling + taxes - outOfPocket)
  let monthlyRate := yearlyRate / 12
  let payment :=
    if termMonths ≤ 0 ∨ baseLoanAmount ≤ 0 then 0
    else if monthlyRate = 0 then round2 (baseLoanAmount / termMonths)
    else
      let factor := jsPow (1 + monthlyRate) (-termMonths)
      round2 (baseLoanAmount * monthlyRate / (1 - factor))
  let totalLoanAmount := round2 (payment * termMonths)
  let interest := round2 (totalLoanAmount - baseLoanAmount)
  { taxes := taxes
    baseLoanAmount := baseLoanAmount
    interest := interest
    totalLoanAmount := totalLoanAmount
    payment := payment }

/-- Function `updateSellingFromCostAndProfit` from App.vue:
`form.sellingPrice = round2(safeNum(form.cost) + safeNum(form.profit))`. -/
def updateSellingFromCostAndProfit (form : QuoteForm) : QuoteForm :=
  { form with sellingPrice := .num (round2 (safeNum form.cost + safeNum form.profit)) }

/-- Function `updateProfitFromCostAndSelling` from App.vue:
`form.profit = round2(safeNum(form.sellingPrice) - safeNum(form.cost))`. -/
def updateProfitFromCostAndSelling (form : QuoteForm) : QuoteForm :=
  { form with profit := .num (round2 (safeNum form.sellingPrice - safeNum form.cost)) }

/-- Coerce every numeric field of a form through `safeNum` (the
"coerce-to-zero" policy applied up front). -/
def numify (form : QuoteForm) : QuoteForm :=
  { cost := .num (safeNum form.cost)
    profit := .num (safeNum form.profit)
    sellingPrice := .num (safeNum form.sellingPrice)
    term := .num (safeNum form.term)
    rate := .num (safeNum form.rate)
    outOfPocket := .num (safeNum form.outOfPocket)
    taxRate := .num (safeNum form.taxRate)
    quoteName := form.quoteName }

/-! ## The Quote Store (backend, `src/unnamed/part_000`) -/

/-- A persisted quote record: the caller-supplied payload (`...req.body`,
kept opaque as a string) plus the identity the store assigns
(`id: Date.now().toString()`, `createdAt: new Date().toISOString()`). -/
structure SavedQuote where
  body : String
  id : String
  createdAt : String
  deriving DecidableEq, Repr

/-- The state of the backing document `data/quotes.json`: absent,
present but not valid JSON, or a parsed list of records. -/
inductive Doc where
  | missing
  | corrupt (raw : String)
  | parsed (quotes : List SavedQuote)
  deriving DecidableEq, Repr

/-- The raw read-and-parse step inside `readQuotes`
(`fs.readFile` followed by `JSON.parse`): it fails on a missing or
corrupt document. -/
def readFileJSON : Doc → Except String (List SavedQuote)
  | .missing => .error "ENOENT"
  | .corrupt raw => .error raw
  | .parsed quotes => .ok quotes

/-- Function `readQuotes` from the backend: the raw read wrapped in
`try ... catch { return []; }`. -/
def readQuotes (d : Doc) : List SavedQuote :=
  match readFileJSON d with
  | .ok quotes => quotes
  | .error _ => []

/-- Route `app.get("/quotes")`: respond with `readQuotes()`. -/
def listQuotes (d : Doc) : List SavedQuote := readQuotes d

/-- Route `app.post("/quotes")`: build the new record with
`id = Date.now().toString()` and `createdAt = new Date().toISOString()`
(`now` is the millisecond clock reading, `iso` its ISO rendering),
`unshift` it onto the collection, write the whole collection back, and
return the new record. -/
def createQuote (now : Nat) (iso : String) (body : String) (d : Doc) :
    SavedQuote × Doc :=
  let newQuote : SavedQuote := { body := body, id := Nat.repr now, createdAt := iso }
  let quotes := readQuotes d
  (newQuote, .parsed (newQuote :: quotes))

/-- Route `app.delete("/quotes/:id")`: filter out the matching record;
if nothing was removed answer 404 **without writing**, otherwise write
the filtered collection and answer 204.  The boolean is `true` for
"deleted", `false` for "not found". -/
def deleteQuote (id : String) (d : Doc) : Bool × Doc :=
  let quotes := readQuotes d
  let filtered := quotes.filter (fun q => q.id ≠ id)
  if filtered.length = quotes.length then (false, d)
  else (true, .parsed filtered)

/-- One client-visible store operation, with the clock reading a create
happens at. -/
inductive StoreOp where
  | create (now : Nat) (iso : String) (body : String)
  | del (id : String)
  deriving DecidableEq, Repr

/-- Effect of one store operation on the backing document. -/
def applyStoreOp (d : Doc) : StoreOp → Doc
  | .create now iso body => (createQuote now iso body d).2
  | .del id => (deleteQuote id d).2

/-- Run a sequence of store operations against a document. -/
def runStore (ops : List StoreOp) (d : Doc) : Doc := ops.foldl applyStoreOp d

/-- The millisecond clock readings of the create operations in a trace. -/
def createTimes (ops : List StoreOp) : List Nat :=
  ops.filterMap fun op => match op with
    | .create now _ _ => some now
    | .del _ => none

/-- The ids of the records currently in the persisted collection. -/
def docIds (d : Doc) : List String := (readQuotes d).map SavedQuote.id

/-! ## Decimal rendering of timestamps

The store's id generator renders `Date.now()` in decimal
(`Nat.repr` models JavaScript's `Number.prototype.toString`).  The
development below proves that rendering injective, which is what makes
distinct clock readings yield distinct ids. -/

/-- The decimal digit list of a natural number (most significant first),
as `Nat.toDigitsCore` produces it when given enough fuel. -/
def decDigits (n : Nat) : List Char :=
  if n < 10 then [Nat.digitChar n]
  else decDigits (n / 10) ++ [Nat.digitChar (n % 10)]
termination_by n
decreasing_by exact Nat.div_lt_self (by omega) (by omega)

/-- Decode a decimal digit list back to the number it renders. -/
def decodeDec (l : List Char) : Nat :=
  l.foldl (fun acc c => 10 * acc + (c.toNat - 48)) 0

/-- The initial form values in App.vue, which are also the concrete
scenario of the spec. -/
def defaultForm : QuoteForm :=
  { cost := .num 26906
    profit := .num 1500
    sellingPrice := .num 28406
    term := .num 36
    rate := .num 5.7
    outOfPocket := .num 2000
    taxRate := .num 7.5
    quoteName := "2025 Ford Escape" }

/-- An editing state whose selling price is half a cent: the value a user
reaches by typing 0.005 into the selling-price field. -/
def halfCentForm : QuoteForm :=
  { cost := .num 0
    profit := .num 0
    sellingPrice := .num (1 / 200)
    term := .num 0
    rate := .num 0
    outOfPocket := .num 0
    taxRate := .num 0
    quoteName := "" }

/-! ## The second staged App.vue variant

The repository stages a second copy of App.vue whose coercion
`const num = (v) => (typeof v === "number" ? v : 0)` passes `NaN`
through, because `typeof NaN === "number"`.  Its arithmetic therefore
has to be modelled over JS numbers including `NaN`, with `NaN`
propagating through every operation. -/

/-- A JavaScript number as the second variant computes with it: a finite
value (modelled exactly as a rational) or `NaN`. -/
inductive JSNum where
  | fin (q : ℚ)
  | nan
  deriving DecidableEq, Repr

namespace JSNum

/-- JS addition: a NaN operand gives NaN. -/
def add : JSNum → JSNum → JSNum
  | fin a, fin b => fin (a + b)
  | _, _ => nan

/-- JS subtraction: a NaN operand gives NaN. -/
def sub : JSNum → JSNum → JSNum
  | fin a, fin b => fin (a - b)
  | _, _ => nan

/-- JS multiplication: a NaN operand gives NaN. -/
def mul : JSNum → JSNum → JSNum
  | fin a, fin b => fin (a * b)
  | _, _ => nan

/-- JS division: a NaN operand gives NaN.  Division by zero yields
±Infinity (or NaN for 0/0) in JS; Infinity lies outside the modelled
domain, the embedding returns NaN there, and no claim below exercises
that case. -/
def div : JSNum → JSNum → JSNum
  | fin a, fin b => if b = 0 then nan else fin (a / b)
  | _, _ => nan

/-- JS unary minus. -/
def neg : JSNum → JSNum
  | fin a => fin (-a)
  | nan => nan

/-- JS `Math.pow` on the modelled domain: a NaN exponent gives NaN, a
zero exponent gives 1 even on a NaN base, otherwise a NaN base gives
NaN, and finite arguments follow `jsPow`. -/
def pow (b e : JSNum) : JSNum :=
  match e with
  | nan => nan
  | fin eq =>
    if eq = 0 then fin 1
    else
      match b with
      | nan => nan
      | fin bq => fin (jsPow bq eq)

/-- JS `<=`: every comparison with NaN is false. -/
def lte : JSNum → JSNum → Bool
  | fin a, fin b => decide (a ≤ b)
  | _, _ => false

/-- JS `===` on numbers: NaN compares unequal to everything. -/
def strictEq : JSNum → JSNum → Bool
  | fin a, fin b => decide (a = b)
  | _, _ => false

/-- Storing a computed JS number back into a form field. -/
def toVal : JSNum → JSVal
  | fin q => .num q
  | nan => .nan

end JSNum

/-- The second variant's `round` (`Math.round(v * 100) / 100`) lifted to
JS numbers: `Math.round(NaN)` is NaN. -/
def roundJS : JSNum → JSNum
  | .fin q => .fin (round2 q)
  | .nan => .nan

/-- Function `num` from the second staged App.vue variant:
`(v) => (typeof v === "number" ? v : 0)`.  NaN has typeof `"number"`
and passes through uncoerced — unlike the first variant's `safeNum`. -/
def num : JSVal → JSNum
  | .num q => .fin q
  | .nan => .nan
  | .nonNumber => .fin 0

/-- The result record of the second variant's calculator; its fields can
be NaN. -/
structure QuoteResultV2 where
  taxes : JSNum
  baseLoanAmount : JSNum
  interest : JSNum
  totalLoanAmount : JSNum
  payment : JSNum
  deriving DecidableEq, Repr

/-- Function `applyQuote` from the second staged App.vue variant, line by
line over JS-number semantics. -/
def applyQuoteV2 (form : QuoteForm) : QuoteResultV2 :=
  let selling := num form.sellingPrice
  let taxRate := (num form.taxRate).div (.fin 100)
  let yearlyRate := (num form.rate).div (.fin 100)
  let term := num form.term
  let down := num form.outOfPocket
  let taxes := roundJS (selling.mul taxRate)
  let baseLoanAmount := roundJS ((selling.add taxes).sub down)
  let monthlyRate := yearlyRate.div (.fin 12)
  let payment :=
    if term.lte (.fin 0) || baseLoanAmount.lte (.fin 0) then JSNum.fin 0
    else if monthlyRate.strictEq (.fin 0) then roundJS (baseLoanAmount.div term)
    else
      let factor := JSNum.pow ((JSNum.fin 1).add monthlyRate) term.neg
      roundJS ((baseLoanAmount.mul monthlyRate).div ((JSNum.fin 1).sub factor))
  let totalLoanAmount := roundJS (payment.mul term)
  let interest := roundJS (totalLoanAmount.sub baseLoanAmount)
  { taxes := taxes
    baseLoanAmount := baseLoanAmount
    interest := interest
    totalLoanAmount := totalLoanAmount
    payment := payment }

/-- Function `updateSelling` from the second variant:
`form.sellingPrice = round(num(form.cost) + num(form.profit))`. -/
def updateSelling (form : QuoteForm) : QuoteForm :=
  { form with
    sellingPrice := (roundJS ((num form.cost).add (num form.profit))).toVal }

/-- Function `updateProfit` from the second variant:
`form.profit = round(num(form.sellingPrice) - num(form.cost))`. -/
def updateProfit (form : QuoteForm) : QuoteForm :=
  { form with
    profit := (roundJS ((num form.sellingPrice).sub (num form.cost))).toVal }

/-- The second variant's coercion applied up front: each field becomes
what `num` sees (non-numbers to 0, NaN kept as NaN). -/
def numifyV2 (form : QuoteForm) : QuoteForm :=
  { cost := (num form.cost).toVal
    profit := (num form.profit).toVal
    sellingPrice := (num form.sellingPrice).toVal
    term := (num form.term).toVal
    rate := (num form.rate).toVal
    outOfPocket := (num form.outOfPocket).toVal
    taxRate := (num form.taxRate).toVal
    quoteName := form.quoteName }

/-- Evaluation rule for `round2`: if `k ≤ 100·v + 1/2 < k + 1` for an
integer `k`, then `round2 v = k / 100`. -/
theorem round2_eq (v : ℚ) (k : ℤ) (h1 : (k : ℚ) ≤ v * 100 + 1 / 2)
    (h2 : v * 100 + 1 / 2 < (k : ℚ) + 1) : round2 v = (k : ℚ) / 100 := by
  have : jsRound (v * 100) = k := Int.floor_eq_iff.mpr ⟨h1, h2⟩
  rw [round2, this]

/-- Function `round2` fixes every exact cent value. -/
theorem round2_eq_self (v : ℚ) (k : ℤ) (h : v * 100 = (k : ℚ)) : round2 v = v := by
  have h1 : (k : ℚ) ≤ v * 100 + 1 / 2 := by rw [h]; linarith
  have h2 : v * 100 + 1 / 2 < (k : ℚ) + 1 := by rw [h]; linarith
  have := round2_eq v k h1 h2
  rw [this, ← h]
  field_simp

/-- With enough fuel, `Nat.toDigitsCore` computes `decDigits` and appends
the accumulator. -/
theorem toDigitsCore_eq :
    ∀ (fuel n : Nat) (ds : List Char), n < fuel →
      Nat.toDigitsCore 10 fuel n ds = decDigits n ++ ds := by
  intro fuel
  induction fuel with
  | zero => intro n ds h; omega
  | succ fuel ih =>
    intro n ds hlt
    by_cases h10 : n / 10 = 0
    · have hn : n < 10 := by omega
      rw [decDigits]
      simp [Nat.toDigitsCore, h10, hn, Nat.mod_eq_of_lt hn]
    · have hn : ¬ n < 10 := by omega
      have hfuel : n / 10 < fuel := by
        have h1 : n / 10 < n := Nat.div_lt_self (by omega) (by omega)
        omega
      rw [decDigits]
      simp only [Nat.toDigitsCore, h10, hn, if_false]
      rw [ih (n / 10) (Nat.digitChar (n % 10) :: ds) hfuel]
      simp

/-- The code point of a decimal digit character is the digit plus 48. -/
theorem digitChar_toNat (n : Nat) (h : n < 10) : (Nat.digitChar n).toNat = n + 48 := by
  interval_cases n <;> rfl

/-- Folding the decimal decoder over `decDigits n` recovers `n` (with the
accumulator scaled by the digit count). -/
theorem foldl_decDigits (n : Nat) :
    ∀ acc : Nat,
      (decDigits n).foldl (fun acc c => 10 * acc + (c.toNat - 48)) acc
        = acc * 10 ^ (decDigits n).length + n := by
  induction n using Nat.strong_induction_on with
  | _ n ih =>
    intro acc
    by_cases hn : n < 10
    · rw [decDigits]
      simp [hn, digitChar_toNat n hn]
      omega
    · have hdiv : n / 10 < n := Nat.div_lt_self (by omega) (by omega)
      rw [decDigits]
      simp only [hn, if_false, List.foldl_append, List.length_append,
        List.foldl_cons, List.foldl_nil, List.length_cons, List.length_nil]
      rw [ih (n / 10) hdiv acc, digitChar_toNat (n % 10) (Nat.mod_lt n (by omega))]
      rw [Nat.zero_add, pow_succ, ← mul_assoc]
      omega

/-- Decoding the decimal digit list of `n` gives back `n`. -/
theorem decodeDec_decDigits (n : Nat) : decodeDec (decDigits n) = n := by
  have h := foldl_decDigits n 0
  simpa [decodeDec] using h

/-- The decimal rendering of a natural number determines the number:
`Nat.repr` (the model of JavaScript's `toString` on timestamps) is
injective. -/
theorem natRepr_injective : Function.Injective Nat.repr := by
  intro m n h
  have hm : Nat.repr m = (decDigits m).asString := by
    unfold Nat.repr Nat.toDigits
    rw [toDigitsCore_eq (m + 1) m [] (by omega)]
    simp
  have hn : Nat.repr n = (decDigits n).asString := by
    unfold Nat.repr Nat.toDigits
    rw [toDigitsCore_eq (n + 1) n [] (by omega)]
    simp
  rw [hm, hn] at h
  have hl : decDigits m = decDigits n := congrArg String.data h
  have := congrArg decodeDec hl
  simpa [decodeDec_decDigits] using this

/-! ## Store helper lemmas -/

/-- The filter of a delete keeps its full length iff no record matches. -/
theorem length_filter_eq_iff (quotes : List SavedQuote) (id : String) :
    ((quotes.filter (fun q => q.id ≠ id)).length = quotes.length) ↔
      ∀ q ∈ quotes, q.id ≠ id := by
  constructor
  · intro h q hq
    have heq : quotes.filter (fun q => q.id ≠ id) = quotes :=
      (List.filter_sublist quotes).eq_of_length h
    have := List.filter_eq_self.mp heq q hq
    simpa using this
  · intro h
    have heq : quotes.filter (fun q => q.id ≠ id) = quotes :=
      List.filter_eq_self.mpr (fun q hq => by simpa using h q hq)
    rw [heq]

/-- A delete that matches nothing answers "not found" and leaves the
document untouched. -/
theorem deleteQuote_not_found (id : String) (d : Doc)
    (h : ∀ q ∈ readQuotes d, q.id ≠ id) : deleteQuote id d = (false, d) := by
  unfold deleteQuote
  rw [if_pos ((length_filter_eq_iff (readQuotes d) id).mpr h)]

/-- A delete that matches some record answers "deleted" and persists the
filtered collection. -/
theorem deleteQuote_found (id : String) (d : Doc)
    (h : ∃ q ∈ readQuotes d, q.id = id) :
    deleteQuote id d =
      (true, .parsed ((readQuotes d).filter (fun q => q.id ≠ id))) := by
  unfold deleteQuote
  rw [if_neg]
  intro hlen
  obtain ⟨q, hq, hid⟩ := h
  exact (length_filter_eq_iff (readQuotes d) id).mp hlen q hq hid

/-- Creating prepends exactly the new record. -/
theorem docIds_create (now : Nat) (iso body : String) (d : Doc) :
    docIds (createQuote now iso body d).2 = Nat.repr now :: docIds d := rfl

/-- A delete only ever removes records: the surviving ids form a sublist. -/
theorem docIds_delete_sublist (id : String) (d : Doc) :
    (docIds (deleteQuote id d).2).Sublist (docIds d) := by
  unfold deleteQuote
  by_cases h : ((readQuotes d).filter (fun q => q.id ≠ id)).length
      = (readQuotes d).length
  · rw [if_pos h]
  · rw [if_neg h]
    exact ((List.filter_sublist (readQuotes d)).map SavedQuote.id)

/-- Invariant carried through a trace of store operations: if the current
ids are distinct and disjoint from the (distinct) ids the remaining
creates will generate, the final ids are distinct; moreover every final
id comes from the start state or from a create in the trace. -/
theorem runStore_nodup_aux :
    ∀ (ops : List StoreOp) (d : Doc),
      (docIds d).Nodup →
      ((createTimes ops).map Nat.repr).Nodup →
      (∀ t ∈ createTimes ops, Nat.repr t ∉ docIds d) →
      (docIds (runStore ops d)).Nodup ∧
        ∀ x ∈ docIds (runStore ops d),
          x ∈ docIds d ∨ x ∈ (createTimes ops).map Nat.repr := by
  intro ops
  induction ops with
  | nil =>
    intro d h1 _ _
    exact ⟨h1, fun x hx => Or.inl hx⟩
  | cons op rest ih =>
    intro d h1 h2 h3
    cases op with
    | create now iso body =>
      have hct : createTimes (StoreOp.create now iso body :: rest)
          = now :: createTimes rest := rfl
      rw [hct] at h2 h3
      simp only [List.map_cons, List.nodup_cons] at h2
      have hrun : runStore (StoreOp.create now iso body :: rest) d
          = runStore rest (createQuote now iso body d).2 := rfl
      rw [hrun]
      have hd1 : (docIds (createQuote now iso body d).2).Nodup := by
        rw [docIds_create]
        exact List.nodup_cons.mpr ⟨h3 now (by simp), h1⟩
      have hd3 : ∀ t ∈ createTimes rest,
          Nat.repr t ∉ docIds (createQuote now iso body d).2 := by
        intro t ht
        rw [docIds_create]
        intro hmem
        rcases List.mem_cons.mp hmem with heq | hmem'
        · exact h2.1 (heq ▸ List.mem_map_of_mem Nat.repr ht)
        · exact h3 t (List.mem_cons.mpr (Or.inr ht)) hmem'
      obtain ⟨hnd, hsub⟩ := ih (createQuote now iso body d).2 hd1 h2.2 hd3
      refine ⟨hnd, fun x hx => ?_⟩
      rcases hsub x hx with hx' | hx'
      · rw [docIds_create] at hx'
        rcases List.mem_cons.mp hx' with heq | hmem'
        · exact Or.inr (by rw [hct]; simpa using Or.inl heq)
        · exact Or.inl hmem'
      · exact Or.inr (by rw [hct]; simpa using Or.inr (by simpa using hx'))
    | del id =>
      have hct : createTimes (StoreOp.del id :: rest) = createTimes rest := rfl
      rw [hct] at h2 h3
      have hrun : runStore (StoreOp.del id :: rest) d
          = runStore rest (deleteQuote id d).2 := rfl
      rw [hrun]
      have hsubl := docIds_delete_sublist id d
      have hd1 : (docIds (deleteQuote id d).2).Nodup := h1.sublist hsubl
      have hd3 : ∀ t ∈ createTimes rest,
          Nat.repr t ∉ docIds (deleteQuote id d).2 := by
        intro t ht hmem
        exact h3 t ht (hsubl.mem hmem)
      obtain ⟨hnd, hsub⟩ := ih (deleteQuote id d).2 hd1 h2 hd3
      refine ⟨hnd, fun x hx => ?_⟩
      rcases hsub x hx with hx' | hx'
      · exact Or.inl (hsubl.mem hx')
      · exact Or.inr (by rw [hct]; exact hx')

/-! ## Store claims -/

/-- C7: `create` prepends the new record, never appends: immediately after
a create the listed collection is the returned record followed by the
previously stored records in their prior order, so the first listed id is
the returned record's id. -/
theorem claim_c7_create_prepends (d : Doc) (now : Nat) (iso body : String) :
    listQuotes (createQuote now iso body d).2
        = (createQuote now iso body d).1 :: listQuotes d ∧
      (listQuotes (createQuote now iso body d).2).head?.map SavedQuote.id
        = some (createQuote now iso body d).1.id :=
  ⟨rfl, rfl⟩

/-- C8: `delete` answers "deleted" iff a record with that id is present,
and "not found" otherwise; consequently deleting a freshly created id
answers "deleted" the first time and "not found" the second time. -/
theorem claim_c8_delete_found_iff (d : Doc) (id : String) (now : Nat)
    (iso body : String) :
    ((deleteQuote id d).1 = true ↔ ∃ q ∈ readQuotes d, q.id = id) ∧
      ((deleteQuote (createQuote now iso body d).1.id
          (createQuote now iso body d).2).1 = true ∧
        (deleteQuote (createQuote now iso body d).1.id
          (deleteQuote (createQuote now iso body d).1.id
            (createQuote now iso body d).2).2).1 = false) := by
  constructor
  · by_cases hex : ∃ q ∈ readQuotes d, q.id = id
    · rw [deleteQuote_found id d hex]
      exact iff_of_true rfl hex
    · push_neg at hex
      rw [deleteQuote_not_found id d hex]
      refine iff_of_false (by simp) ?_
      rintro ⟨q, hq, hid⟩
      exact hex q hq hid
  · have hread : readQuotes (createQuote now iso body d).2
        = (createQuote now iso body d).1 :: readQuotes d := rfl
    have hfound : ∃ q ∈ readQuotes (createQuote now iso body d).2,
        q.id = (createQuote now iso body d).1.id := by
      rw [hread]
      exact ⟨(createQuote now iso body d).1, List.mem_cons_self _ _, rfl⟩
    have h1 := deleteQuote_found _ _ hfound
    constructor
    · rw [h1]
    · rw [h1]
      have hnone : ∀ q ∈ readQuotes (Doc.parsed
          ((readQuotes (createQuote now iso body d).2).filter
            (fun q => q.id ≠ (createQuote now iso body d).1.id))),
          q.id ≠ (createQuote now iso body d).1.id := by
        intro q hq
        have := (List.mem_filter.mp hq).2
        simpa using this
      rw [deleteQuote_not_found _ _ hnone]

/-- C9: the store's read is self-healing: when the backing document is
missing or corrupt, list returns the empty collection instead of
propagating the read error, and when the document parses it returns its
records. -/
theorem claim_c9_list_self_healing (d : Doc) :
    ((∃ e, readFileJSON d = .error e) → listQuotes d = []) ∧
      (∀ quotes, readFileJSON d = .ok quotes → listQuotes d = quotes) := by
  cases d with
  | missing =>
    refine ⟨fun _ => rfl, fun quotes h => ?_⟩
    exact absurd h (by simp [readFileJSON])
  | corrupt raw =>
    refine ⟨fun _ => rfl, fun quotes h => ?_⟩
    exact absurd h (by simp [readFileJSON])
  | parsed quotes =>
    refine ⟨fun ⟨e, he⟩ => ?_, fun qs h => ?_⟩
    · exact absurd he (by simp [readFileJSON])
    · have : quotes = qs := by simpa [readFileJSON] using h
      rw [← this]
      rfl

/-- Witness for C9 at the concrete document state `missing`. -/
theorem claim_c9_witness :
    (∃ e, readFileJSON Doc.missing = .error e) ∧ listQuotes Doc.missing = [] :=
  ⟨⟨"ENOENT", rfl⟩, (claim_c9_list_self_healing Doc.missing).1 ⟨"ENOENT", rfl⟩⟩

/-- C10: a delete whose id matches no record writes nothing: the outcome
is "not found" and the backing document is left exactly as it was. -/
theorem claim_c10_delete_not_found_frame (id : String) (d : Doc)
    (h : ∀ q ∈ readQuotes d, q.id ≠ id) : deleteQuote id d = (false, d) :=
  deleteQuote_not_found id d h

/-- Witness for C10 at a concrete one-record document and an absent id. -/
theorem claim_c10_witness :
    (∀ q ∈ readQuotes (Doc.parsed [⟨"b", "17", "t"⟩]), q.id ≠ "999") ∧
      deleteQuote "999" (Doc.parsed [⟨"b", "17", "t"⟩])
        = (false, Doc.parsed [⟨"b", "17", "t"⟩]) :=
  ⟨by decide, claim_c10_delete_not_found_frame "999" _ (by decide)⟩

/-- C1 as stated is false: two creates within the same millisecond both
render the same clock reading as their id (`Date.now().toString()`), so
the persisted collection holds two records with equal ids. -/
theorem claim_c1_counterexample :
    ¬ (docIds (runStore
        [StoreOp.create 5 "t1" "b1", StoreOp.create 5 "t2" "b2"]
        Doc.missing)).Nodup := by
  have h : docIds (runStore
      [StoreOp.create 5 "t1" "b1", StoreOp.create 5 "t2" "b2"] Doc.missing)
      = [Nat.repr 5, Nat.repr 5] := rfl
  rw [h]
  simp

/-- C1 (amended): after any sequence of create/delete operations starting
from an empty store, all persisted ids are pairwise distinct, provided the
create operations occur at pairwise distinct millisecond clock
readings. -/
theorem claim_c1_ids_distinct (ops : List StoreOp)
    (h : (createTimes ops).Nodup) :
    (docIds (runStore ops Doc.missing)).Nodup := by
  have hmap : ((createTimes ops).map Nat.repr).Nodup := h.map natRepr_injective
  have hstart : (docIds Doc.missing).Nodup := by
    simp [docIds, readQuotes, readFileJSON]
  have hdisj : ∀ t ∈ createTimes ops, Nat.repr t ∉ docIds Doc.missing := by
    intro t _ hmem
    simp [docIds, readQuotes, readFileJSON] at hmem
  exact (runStore_nodup_aux ops Doc.missing hstart hmap hdisj).1

/-- Witness for the amended C1: a concrete trace with two creates at
distinct milliseconds and a delete in between the reads. -/
theorem claim_c1_witness :
    (createTimes [StoreOp.create 1 "t1" "b1", StoreOp.create 2 "t2" "b2",
        StoreOp.del (Nat.repr 1)]).Nodup ∧
      (docIds (runStore [StoreOp.create 1 "t1" "b1",
        StoreOp.create 2 "t2" "b2", StoreOp.del (Nat.repr 1)]
        Doc.missing)).Nodup :=
  ⟨by decide, claim_c1_ids_distinct _ (by decide)⟩

/-! ## Calculator claims -/

/-- Rounding the zero payment gives zero. -/
theorem round2_zero : round2 0 = 0 := round2_eq_self 0 0 (by norm_num)

/-- On an integer exponent `jsPow` is the exact integer power. -/
theorem jsPow_intCast (b : ℚ) (z : ℤ) : jsPow b (z : ℚ) = b ^ z := by
  simp [jsPow, Rat.den_intCast, Rat.num_intCast]

/-- C2: the default scenario.  Taxes are 2130.45, the base loan amount is
28536.45, and payment, total and interest follow the amortization formula
with every intermediate rounded to cents before the next step. -/
theorem claim_c2_default_scenario :
    applyQuote defaultForm =
      { taxes := 2130.45
        baseLoanAmount := 28536.45
        payment := round2 (28536.45 * 0.00475 / (1 - 1.00475 ^ (-36 : ℤ)))
        totalLoanAmount := round2 (round2 (28536.45 * 0.00475
            / (1 - 1.00475 ^ (-36 : ℤ))) * 36)
        interest := round2 (round2 (round2 (28536.45 * 0.00475
            / (1 - 1.00475 ^ (-36 : ℤ))) * 36) - 28536.45) } := by
  have htaxes : round2 ((28406 : ℚ) * (7.5 / 100)) = 2130.45 := by
    rw [round2_eq _ 213045 (by norm_num) (by norm_num)]
    norm_num
  have hbase : round2 ((28406 : ℚ) + 2130.45 - 2000) = 28536.45 := by
    rw [round2_eq _ 2853645 (by norm_num) (by norm_num)]
    norm_num
  simp only [applyQuote, defaultForm, safeNum]
  rw [htaxes, hbase]
  rw [if_neg (by norm_num : ¬((36 : ℚ) ≤ 0 ∨ (28536.45 : ℚ) ≤ 0))]
  rw [if_neg (by norm_num : ¬((5.7 : ℚ) / 100 / 12 = 0))]
  rw [show (-(36 : ℚ)) = ((-36 : ℤ) : ℚ) by norm_num, jsPow_intCast]
  rw [show (5.7 : ℚ) / 100 / 12 = 0.00475 by norm_num]
  rw [show (1 : ℚ) + 0.00475 = 1.00475 by norm_num]

/-- C3 as stated is false: `round2` does not round half away from zero.
At `v = -0.005` (cents exactly a negative half) JavaScript's
`Math.round(-0.5)` is `-0`, so `round2 (-0.005) = 0`, not `-0.01`. -/
theorem claim_c3_counterexample :
    round2 (-(1 / 200) : ℚ) = 0 ∧ round2 (-(1 / 200) : ℚ) ≠ -(1 / 100) := by
  have h : round2 (-(1 / 200) : ℚ) = ((0 : ℤ) : ℚ) / 100 :=
    round2_eq _ 0 (by norm_num) (by norm_num)
  have h0 : round2 (-(1 / 200) : ℚ) = 0 := by simpa using h
  exact ⟨h0, by rw [h0]; norm_num⟩

/-- C3 (amended): `round2` rounds to the nearest multiple of 1/100 with
ties toward +∞ (the exact semantics of `Math.round(100 v)/100`): the
result is a cent value lying in the half-open window
`(v - 1/200, v + 1/200]`, so a tie rounds up, which for negative halves
means toward zero rather than away from it. -/
theorem claim_c3_round_half_up (v : ℚ) :
    ∃ k : ℤ, round2 v = (k : ℚ) / 100 ∧
      v - 1 / 200 < round2 v ∧ round2 v ≤ v + 1 / 200 := by
  refine ⟨jsRound (v * 100), rfl, ?_, ?_⟩
  · have hf2 : v * 100 + 1 / 2 - 1 < (jsRound (v * 100) : ℚ) :=
      Int.sub_one_lt_floor _
    rw [round2]
    linarith
  · have hf : (jsRound (v * 100) : ℚ) ≤ v * 100 + 1 / 2 := Int.floor_le _
    rw [round2]
    linarith

/-- C4: whenever the (coerced) term is nonpositive the calculator reports
a zero payment and zero total, interest `round2 (-baseLoanAmount)`, while
taxes and base loan amount are still computed normally from the selling
price, tax rate and down payment. -/
theorem claim_c4_degenerate_term (form : QuoteForm)
    (h : safeNum form.term ≤ 0) :
    (applyQuote form).payment = 0 ∧
      (applyQuote form).totalLoanAmount = 0 ∧
      (applyQuote form).interest = round2 (-(applyQuote form).baseLoanAmount) ∧
      (applyQuote form).taxes
        = round2 (safeNum form.sellingPrice * (safeNum form.taxRate / 100)) ∧
      (applyQuote form).baseLoanAmount
        = round2 (safeNum form.sellingPrice + (applyQuote form).taxes
            - safeNum form.outOfPocket) := by
  refine ⟨?_, ?_, ?_, rfl, rfl⟩ <;>
    simp [applyQuote, h, round2_zero, zero_sub]

/-- Witness for C4: the default scenario with the term set to zero. -/
theorem claim_c4_witness :
    safeNum ({ defaultForm with term := .num 0 } : QuoteForm).term ≤ 0 ∧
      (applyQuote { defaultForm with term := .num 0 }).payment = 0 ∧
      (applyQuote { defaultForm with term := .num 0 }).totalLoanAmount = 0 :=
  ⟨by norm_num [defaultForm, safeNum],
    (claim_c4_degenerate_term _ (by norm_num [defaultForm, safeNum])).1,
    (claim_c4_degenerate_term { defaultForm with term := .num 0 }
      (by norm_num [defaultForm, safeNum])).2.1⟩

/-- Reading a stored JS number back through the second variant's
coercion is the identity. -/
theorem num_toVal (j : JSNum) : num j.toVal = j := by
  cases j <;> rfl

/-- C5 as stated is false for the second staged variant: its coercion
`num` passes NaN through (`typeof NaN === "number"`), so a NaN rate
propagates into the payment (`Math.pow(1 + NaN, -36)` is NaN) instead of
acting as rate 0. -/
theorem claim_c5_counterexample :
    (applyQuoteV2 { defaultForm with rate := .nan }).payment
      ≠ (applyQuoteV2 { defaultForm with rate := .num 0 }).payment := by
  have h1 : round2 ((42609 : ℚ) / 20) = 42609 / 20 :=
    round2_eq_self _ 213045 (by norm_num)
  have h2 : round2 ((570729 : ℚ) / 20) = 570729 / 20 :=
    round2_eq_self _ 2853645 (by norm_num)
  have hL : (applyQuoteV2 { defaultForm with rate := .nan }).payment
      = JSNum.nan := by
    norm_num [applyQuoteV2, defaultForm, num, JSNum.div, JSNum.mul,
      JSNum.add, JSNum.sub, JSNum.neg, JSNum.pow, JSNum.lte, JSNum.strictEq,
      roundJS, h1, h2]
  rw [hL]
  norm_num [applyQuoteV2, defaultForm, num, JSNum.div, JSNum.mul,
    JSNum.add, JSNum.sub, JSNum.neg, JSNum.pow, JSNum.lte, JSNum.strictEq,
    roundJS, h1, h2]
  exact fun h => JSNum.noConfusion h

/-- C5 (amended): the coercion policy each variant actually implements.
The first variant's calculator and synchronizer updates behave on any
form exactly as with every numeric field passed through `safeNum`
(missing / non-numeric / NaN all become 0), and NaN in the rate or term
field there gives the same result as a literal 0.  The second variant
coerces only non-numbers to 0 (NaN passes through `num`): its calculator
and synchronizer updates are invariant under that coercion, and a
non-number rate or term behaves as 0 — but not NaN, see the
counterexample. -/
theorem claim_c5_coerce_to_zero (form : QuoteForm) :
    (applyQuote (numify form) = applyQuote form ∧
      updateSellingFromCostAndProfit (numify form)
        = numify (updateSellingFromCostAndProfit form) ∧
      updateProfitFromCostAndSelling (numify form)
        = numify (updateProfitFromCostAndSelling form) ∧
      applyQuote { form with rate := .nan }
        = applyQuote { form with rate := .num 0 } ∧
      applyQuote { form with term := .nan }
        = applyQuote { form with term := .num 0 } ∧
      applyQuote { form with rate := .nonNumber }
        = applyQuote { form with rate := .num 0 }) ∧
    (applyQuoteV2 (numifyV2 form) = applyQuoteV2 form ∧
      updateSelling (numifyV2 form) = numifyV2 (updateSelling form) ∧
      updateProfit (numifyV2 form) = numifyV2 (updateProfit form) ∧
      applyQuoteV2 { form with rate := .nonNumber }
        = applyQuoteV2 { form with rate := .num 0 } ∧
      applyQuoteV2 { form with term := .nonNumber }
        = applyQuoteV2 { form with term := .num 0 }) := by
  constructor
  · refine ⟨?_, ?_, ?_, ?_, ?_, ?_⟩ <;>
      simp [applyQuote, numify, safeNum,
        updateSellingFromCostAndProfit, updateProfitFromCostAndSelling]
  · refine ⟨?_, ?_, ?_, ?_, ?_⟩
    · simp [applyQuoteV2, numifyV2, num_toVal]
    · simp [updateSelling, numifyV2, num_toVal]
    · simp [updateProfit, numifyV2, num_toVal]
    · simp [applyQuoteV2, num]
    · simp [applyQuoteV2, num]

/-- C6 as stated is false: with cost 0 and selling price 0.005, the
selling-price edit sets profit to `round2 0.005 = 0.01`, and the
follow-up cost/profit edit sets the selling price to 0.01, not back to
0.005. -/
theorem claim_c6_counterexample :
    (updateSellingFromCostAndProfit
        (updateProfitFromCostAndSelling halfCentForm)).sellingPrice
      ≠ halfCentForm.sellingPrice := by
  have h1 : round2 ((1 : ℚ) / 200 - 0) = 1 / 100 := by
    have := round2_eq ((1 : ℚ) / 200 - 0) 1 (by norm_num) (by norm_num)
    simpa using this
  have h2 : round2 ((0 : ℚ) + 1 / 100) = 1 / 100 := by
    have := round2_eq ((0 : ℚ) + 1 / 100) 1 (by norm_num) (by norm_num)
    simpa using this
  simp only [updateProfitFromCostAndSelling, updateSellingFromCostAndProfit,
    halfCentForm, safeNum, h1, h2]
  intro h
  have := JSVal.num.inj h
  norm_num at this

/-- C6 (amended): the round-trip `onSellingPriceEdited` then
`onCostOrProfitEdited` restores the original selling price provided the
cost and the selling price are exact cent values (multiples of 0.01),
which is what the cent-stepped form inputs produce. -/
theorem claim_c6_roundtrip (form : QuoteForm) (s : ℚ) (kc ks : ℤ)
    (hs : form.sellingPrice = .num s)
    (hc : safeNum form.cost * 100 = (kc : ℚ))
    (hks : s * 100 = (ks : ℚ)) :
    (updateSellingFromCostAndProfit
      (updateProfitFromCostAndSelling form)).sellingPrice = .num s := by
  have h1 : safeNum form.sellingPrice = s := by rw [hs]; rfl
  have hp : round2 (safeNum form.sellingPrice - safeNum form.cost)
      = s - safeNum form.cost := by
    rw [h1]
    refine round2_eq_self _ (ks - kc) ?_
    push_cast
    rw [← hks, ← hc]
    ring
  show JSVal.num (round2 (safeNum form.cost
      + safeNum (JSVal.num (round2 (safeNum form.sellingPrice
          - safeNum form.cost))))) = JSVal.num s
  rw [hp]
  show JSVal.num (round2 (safeNum form.cost + (s - safeNum form.cost)))
      = JSVal.num s
  rw [show safeNum form.cost + (s - safeNum form.cost) = s by ring,
    round2_eq_self s ks hks]

/-- Witness for the amended C6: the default form, whose cost and selling
price are whole-dollar (hence cent) values. -/
theorem claim_c6_witness :
    defaultForm.sellingPrice = JSVal.num 28406 ∧
      safeNum defaultForm.cost * 100 = ((2690600 : ℤ) : ℚ) ∧
      (28406 : ℚ) * 100 = ((2840600 : ℤ) : ℚ) ∧
      (updateSellingFromCostAndProfit
        (updateProfitFromCostAndSelling defaultForm)).sellingPrice
        = JSVal.num 28406 :=
  ⟨rfl, by norm_num [defaultForm, safeNum], by norm_num,
    claim_c6_roundtrip defaultForm 28406 2690600 2840600 rfl
      (by norm_num [defaultForm, safeNum]) (by norm_num)⟩
